import Mathlib

/-!
Verification of the conversation-session protocol of the Spur support-agent
repository: session resolution, message persistence, context-window building,
history fetching, and gateway-error classification.  The definitions are a
shallow embedding of `src/app/api/chat/route.ts` (and of the second endpoint
variant embedded in `src/app/page.tsx`) together with the Drizzle schema.
-/

/-- Tests whether the character list `pat` occurs at the start of the second
list; the building block for embedding JavaScript `String.prototype.includes`. -/
def leadsChars : List Char → List Char → Bool
  | [], _ => true
  | _ :: _, [] => false
  | p :: ps, c :: cs => p == c && leadsChars ps cs

/-- Tests whether the character list `pat` occurs contiguously anywhere in the
second list. -/
def occursChars (pat : List Char) : List Char → Bool
  | [] => leadsChars pat []
  | c :: cs => leadsChars pat (c :: cs) || occursChars pat cs

/-- Embeds JavaScript `s.includes(pat)`: contiguous-substring test. -/
def strIncludes (s pat : String) : Bool :=
  occursChars pat.data s.data

theorem leadsChars_append :
    ∀ (p q s : List Char), leadsChars (p ++ q) s = true → leadsChars p s = true
  | [], _, _, _ => rfl
  | _ :: _, _, [], h => by simp [leadsChars] at h
  | a :: ps, q, c :: cs, h => by
    simp only [List.cons_append, leadsChars, Bool.and_eq_true] at h ⊢
    exact ⟨h.1, leadsChars_append ps q cs h.2⟩

theorem occursChars_append :
    ∀ (p q s : List Char), occursChars (p ++ q) s = true → occursChars p s = true
  | p, q, [], h => by
    simp only [occursChars] at h ⊢
    exact leadsChars_append p q [] h
  | p, q, c :: cs, h => by
    simp only [occursChars, Bool.or_eq_true] at h ⊢
    cases h with
    | inl h => exact Or.inl (leadsChars_append p q _ h)
    | inr h => exact Or.inr (occursChars_append p q cs h)

/-- Row of the `sessions` table (`lib/schema.ts`): primary key `id` and the
`createdAt` stamp.  Timestamps are modelled as naturals drawn from the
database clock. -/
structure Session where
  id : String
  createdAt : Nat
deriving DecidableEq

/-- Row of the `messages` table (`lib/schema.ts`): generated `id`, foreign
`sessionId`, `role` (persisted as `"user"` or `"assistant"`), `content` and
the `createdAt` stamp.  Generated row ids are modelled as naturals drawn from
the same clock, which keeps them unique. -/
structure Message where
  id : Nat
  sessionId : String
  role : String
  content : String
  createdAt : Nat
deriving DecidableEq

/-- Persistent store: the two tables plus the clock from which `defaultNow()`
stamps inserted rows.  The clock advances at every insert, so `createdAt`
values are strictly increasing in insertion order. -/
structure Db where
  sessions : List Session
  messages : List Message
  clock : Nat
deriving DecidableEq

def Db.empty : Db := ⟨[], [], 0⟩

/-- Embeds `db.insert(sessions).values({ id })` (and `values({})` with a
generated id): appends one session row stamped with the current clock. -/
def insertSession (db : Db) (sid : String) : Db :=
  { db with
      sessions := db.sessions ++ [⟨sid, db.clock⟩],
      clock := db.clock + 1 }

/-- Embeds `db.insert(messages).values({ sessionId, role, content })`: appends
one message row whose generated id and `createdAt` both come from the clock. -/
def insertMessage (db : Db) (sid role content : String) : Db :=
  { db with
      messages := db.messages ++ [⟨db.clock, sid, role, content, db.clock⟩],
      clock := db.clock + 1 }

/-- Embeds `db.select().from(sessions).where(eq(sessions.id, sid)).limit(1)`,
reduced to its only use, which is testing whether the result set is empty. -/
def sessionExists (db : Db) (sid : String) : Bool :=
  db.sessions.any (fun s => s.id == sid)

/-- ORDER BY `createdAt` ascending (drizzle `orderBy(messages.createdAt)`). -/
def sortAscByCreatedAt (l : List Message) : List Message :=
  l.mergeSort (fun a b => decide (a.createdAt ≤ b.createdAt))

/-- ORDER BY `createdAt` descending (drizzle `orderBy(desc(messages.createdAt))`). -/
def sortDescByCreatedAt (l : List Message) : List Message :=
  l.mergeSort (fun a b => decide (b.createdAt ≤ a.createdAt))

/-- Embeds the query `select … from messages where sessionId = sid
orderBy desc(createdAt) limit n`. -/
def recentDescending (db : Db) (sid : String) (n : Nat) : List Message :=
  (sortDescByCreatedAt (db.messages.filter (fun m => m.sessionId == sid))).take n

/-- Embeds the query `select … from messages where sessionId = sid
orderBy createdAt` (ascending, no limit). -/
def allForSession (db : Db) (sid : String) : List Message :=
  sortAscByCreatedAt (db.messages.filter (fun m => m.sessionId == sid))

/-- Representation invariant maintained by every handler path: message rows are
stored in strictly increasing `createdAt` order and every stamp is below the
clock. -/
def Db.Wf (db : Db) : Prop :=
  db.messages.Pairwise (fun a b => a.createdAt < b.createdAt) ∧
  ∀ m ∈ db.messages, m.createdAt < db.clock

theorem Db.Wf.empty : Db.empty.Wf := by
  constructor
  · exact List.Pairwise.nil
  · intro m hm
    simp [Db.empty] at hm

/-- Uniqueness of sorted permutations: a permutation of a strictly sorted list
that is itself weakly sorted (for compatible relations) is equal to it. -/
theorem perm_eq_of_pairwise {R S : Message → Message → Prop}
    (hRS : ∀ a b, R a b → S b a → False) :
    ∀ (l₁ l₂ : List Message), l₁.Perm l₂ → l₁.Pairwise R → l₂.Pairwise S → l₁ = l₂
  | [], l₂, hp, _, _ => (hp.symm.eq_nil).symm
  | a :: t₁, [], hp, _, _ => by cases hp.eq_nil
  | a :: t₁, b :: t₂, hp, h₁, h₂ => by
    have ha : a ∈ b :: t₂ := hp.subset (List.mem_cons_self a t₁)
    have hb : b ∈ a :: t₁ := hp.symm.subset (List.mem_cons_self b t₂)
    have hab : a = b := by
      rcases List.mem_cons.mp ha with h | hat₂
      · exact h
      rcases List.mem_cons.mp hb with h | hbt₁
      · exact h.symm
      exact (hRS a b ((List.pairwise_cons.mp h₁).1 b hbt₁)
        ((List.pairwise_cons.mp h₂).1 a hat₂)).elim
    subst hab
    have ht := perm_eq_of_pairwise hRS t₁ t₂ hp.cons_inv
      (List.pairwise_cons.mp h₁).2 (List.pairwise_cons.mp h₂).2
    rw [ht]

/-- Sorting an already strictly ascending list in descending order reverses it. -/
theorem sortDesc_of_strict_asc {l : List Message}
    (h : l.Pairwise (fun a b => a.createdAt < b.createdAt)) :
    sortDescByCreatedAt l = l.reverse := by
  apply perm_eq_of_pairwise
    (R := fun a b => b.createdAt ≤ a.createdAt)
    (S := fun a b => b.createdAt < a.createdAt)
  · intro a b h1 h2
    omega
  · exact (List.mergeSort_perm l _).trans l.reverse_perm.symm
  · have hs : (l.mergeSort (fun a b => decide (b.createdAt ≤ a.createdAt))).Pairwise
        (fun a b => decide (b.createdAt ≤ a.createdAt) = true) :=
      List.sorted_mergeSort
        (fun a b c hab hbc => by
          simp only [decide_eq_true_eq] at hab hbc ⊢
          omega)
        (fun a b => by
          rcases Nat.le_total b.createdAt a.createdAt with hle | hle <;> simp [hle])
        l
    exact hs.imp (by intro a b hb; simpa using hb)
  · exact List.pairwise_reverse.mpr h

/-- Sorting an already strictly ascending list in ascending order is the identity. -/
theorem sortAsc_of_strict_asc {l : List Message}
    (h : l.Pairwise (fun a b => a.createdAt < b.createdAt)) :
    sortAscByCreatedAt l = l := by
  exact List.mergeSort_of_sorted
    (h.imp (by intro a b hab; simpa using Nat.le_of_lt hab))

theorem wf_insertSession {db : Db} (h : db.Wf) (sid : String) :
    (insertSession db sid).Wf := by
  refine ⟨h.1, fun m hm => ?_⟩
  have := h.2 m hm
  simp only [insertSession]
  omega

theorem wf_insertMessage {db : Db} (h : db.Wf) (sid role content : String) :
    (insertMessage db sid role content).Wf := by
  constructor
  · apply List.pairwise_append.mpr
    refine ⟨h.1, List.pairwise_singleton _ _, ?_⟩
    intro a ha b hb
    simp only [List.mem_singleton] at hb
    subst hb
    exact h.2 a ha
  · intro m hm
    rcases List.mem_append.mp hm with hm | hm
    · have := h.2 m hm
      simp only [insertMessage]
      omega
    · simp only [List.mem_singleton] at hm
      subst hm
      simp [insertMessage]

/-- Filtering preserves the strict `createdAt` ordering of a well-formed store. -/
theorem pairwise_filter_messages {db : Db} (h : db.Wf) (sid : String) :
    (db.messages.filter (fun m => m.sessionId == sid)).Pairwise
      (fun a b => a.createdAt < b.createdAt) :=
  List.Pairwise.sublist (List.filter_sublist db.messages) h.1

/-- Key windowing fact: immediately after appending a message for `sid`, the
descending query returns that message first, followed by the previous
descending view with the limit reduced by one. -/
theorem recentDescending_insertMessage {db : Db} (h : db.Wf)
    (sid role content : String) (n : Nat) :
    recentDescending (insertMessage db sid role content) sid (n + 1) =
      ⟨db.clock, sid, role, content, db.clock⟩ :: recentDescending db sid n := by
  unfold recentDescending insertMessage
  simp only [List.filter_append]
  have hsid : (List.filter (fun m => m.sessionId == sid)
      [(⟨db.clock, sid, role, content, db.clock⟩ : Message)]) =
      [⟨db.clock, sid, role, content, db.clock⟩] := by
    simp
  rw [hsid]
  have hF := pairwise_filter_messages h sid
  have hFnew : ((db.messages.filter (fun m => m.sessionId == sid)) ++
      [(⟨db.clock, sid, role, content, db.clock⟩ : Message)]).Pairwise
      (fun a b => a.createdAt < b.createdAt) := by
    apply List.pairwise_append.mpr
    refine ⟨hF, List.pairwise_singleton _ _, ?_⟩
    intro a ha b hb
    simp only [List.mem_singleton] at hb
    subst hb
    exact h.2 a ((List.filter_sublist db.messages).subset ha)
  rw [sortDesc_of_strict_asc hFnew, sortDesc_of_strict_asc hF]
  rw [List.reverse_append]
  simp [List.take_succ_cons]

/-- Heterogeneous provider failure as the classifiers observe it: the
`message` text, the numeric `status` (`error?.status || error?.statusCode`)
and the Node error `code` string. -/
structure GatewayError where
  message : String
  status : Option Nat
  code : Option String
deriving DecidableEq

/-- Result the `catch` block of `route.ts` builds: the locals `errorMessage`
and `statusCode`. -/
structure ErrResult where
  errorMessage : String
  statusCode : Nat
deriving DecidableEq

/-- Embeds the `catch` block of `POST` in `src/app/api/chat/route.ts`
(lines 104–125).  Matching is case-sensitive `String.includes`.  Note that the
source updates only `errorMessage` in the `API_KEY` branch, so `statusCode`
keeps its default 500 there. -/
def classifyError (e : GatewayError) : ErrResult :=
  if strIncludes e.message "API_KEY" then
    ⟨"Service configuration error. Please contact support.", 500⟩
  else if strIncludes e.message "RATE_LIMIT" || e.status == some 429 then
    ⟨"Too many requests. Please wait a moment and try again.", 429⟩
  else if strIncludes e.message "timeout" || e.code == some "ETIMEDOUT" then
    ⟨"The request timed out. Please try again.", 504⟩
  else
    ⟨"An error occurred while processing your request.", 500⟩

/-- Category labels for the seven-rule classifier of the second endpoint
variant (in `src/app/page.tsx`); the names follow spec §4.5, since the source
identifies each branch only by its fixed status and message. -/
inductive ErrorCategory where
  | ServiceUnavailable
  | ConfigError
  | RateLimited
  | Timeout
  | ContentBlocked
  | Internal
deriving DecidableEq

/-- Classification outcome of the seven-rule classifier: category label plus
the HTTP status and fixed user-facing message the response is built from. -/
structure Classification where
  category : ErrorCategory
  status : Nat
  userMessage : String
deriving DecidableEq

/-- Embeds JavaScript `toLowerCase` as used by the classifier (character-wise
ASCII lowering). -/
def strToLower (s : String) : String :=
  ⟨s.data.map Char.toLower⟩

/-- Rule 1 condition (quota/billing): lowercased message contains `quota`,
`exhausted`, `billing` or `insufficient`, or the status is 402. -/
def quotaRule (e : GatewayError) : Bool :=
  strIncludes (strToLower e.message) "quota" ||
  strIncludes (strToLower e.message) "exhausted" ||
  strIncludes (strToLower e.message) "billing" ||
  strIncludes (strToLower e.message) "insufficient" ||
  e.status == some 402

/-- Rule 2 condition (credentials): lowercased message contains `api_key`,
`api key`, `invalid key`, `unauthorized` or `authentication`, or the status is
401 or 403. -/
def credentialRule (e : GatewayError) : Bool :=
  strIncludes (strToLower e.message) "api_key" ||
  strIncludes (strToLower e.message) "api key" ||
  strIncludes (strToLower e.message) "invalid key" ||
  strIncludes (strToLower e.message) "unauthorized" ||
  strIncludes (strToLower e.message) "authentication" ||
  e.status == some 401 || e.status == some 403

/-- Rule 3 condition (rate limiting): lowercased message contains `rate`,
`limit` or `too many`, or the status is 429. -/
def rateRule (e : GatewayError) : Bool :=
  strIncludes (strToLower e.message) "rate" ||
  strIncludes (strToLower e.message) "limit" ||
  strIncludes (strToLower e.message) "too many" ||
  e.status == some 429

/-- Rule 4 condition (timeouts): lowercased message contains `timeout`,
`timed out`, `etimedout` or `econnreset`, or the status is 504 or 408. -/
def timeoutRule (e : GatewayError) : Bool :=
  strIncludes (strToLower e.message) "timeout" ||
  strIncludes (strToLower e.message) "timed out" ||
  strIncludes (strToLower e.message) "etimedout" ||
  strIncludes (strToLower e.message) "econnreset" ||
  e.status == some 504 || e.status == some 408

/-- Rule 5 condition (model unavailable): lowercased message contains `model`,
`not found` or `unavailable`, or the status is 404. -/
def modelRule (e : GatewayError) : Bool :=
  strIncludes (strToLower e.message) "model" ||
  strIncludes (strToLower e.message) "not found" ||
  strIncludes (strToLower e.message) "unavailable" ||
  e.status == some 404

/-- Rule 6 condition (content safety): lowercased message contains `safety`,
`blocked`, `harmful` or `policy`. -/
def safetyRule (e : GatewayError) : Bool :=
  strIncludes (strToLower e.message) "safety" ||
  strIncludes (strToLower e.message) "blocked" ||
  strIncludes (strToLower e.message) "harmful" ||
  strIncludes (strToLower e.message) "policy"

/-- Embeds the `catch` block of the second `POST` variant (the full seven-rule
Error Classifier found in `src/app/page.tsx`, matching spec §4.5): ordered
rules over the lowercased message text and the status, first match wins. -/
def classifyErrorFull (e : GatewayError) : Classification :=
  if quotaRule e then
    ⟨.ServiceUnavailable, 503, "Our AI service is temporarily unavailable. Please try again later."⟩
  else if credentialRule e then
    ⟨.ConfigError, 503, "Service configuration error. Please contact support."⟩
  else if rateRule e then
    ⟨.RateLimited, 429, "Too many requests. Please wait a moment and try again."⟩
  else if timeoutRule e then
    ⟨.Timeout, 504, "The request took too long. Please try again."⟩
  else if modelRule e then
    ⟨.ServiceUnavailable, 503, "AI service is temporarily unavailable. Please try again later."⟩
  else if safetyRule e then
    ⟨.ContentBlocked, 400, "I apologize, but I cannot respond to that. Please try a different question."⟩
  else
    ⟨.Internal, 500, "Sorry, something went wrong. Please try again."⟩

/-- Body of a Send request: `{ message, sessionId? }`.  An absent field is
`none`; the validation check `if (!message)` also treats the empty string as
absent. -/
structure ChatReq where
  message : Option String
  sessionId : Option String

/-- One prior turn as handed to the Gemini SDK: the provider role (`"user"` or
`"model"`) and the text of the single-element `parts` array. -/
structure GeminiTurn where
  role : String
  text : String
deriving DecidableEq

/-- Record of the single `chat.sendMessage` invocation: the `history` the chat
was started with and the current message sent as the active turn. -/
structure GatewayCall where
  history : List GeminiTurn
  current : String
deriving DecidableEq

/-- External nondeterminism of one request: the id that
`db.insert(sessions).values({})` generates, whether the insert that reuses the
client-supplied id throws, and the outcome of the gateway call. -/
structure Env where
  freshId : String
  insertSuppliedIdFails : Bool
  gateway : Except GatewayError String

/-- JavaScript falsiness of the optional string fields (`!message`,
`!sessionId`): absent or the empty string. -/
def falsy : Option String → Bool
  | none => true
  | some s => s == ""

/-- Embeds the session-resolution block of `POST` (`route.ts` lines 39–55):
a JS-falsy supplied id — absent or the empty string, per
`if (!currentSessionId)` — creates a fresh session with a generated id; a
supplied id that exists is kept with no write; an unknown supplied id is
inserted as the primary key, falling back to a freshly generated id when that
insert throws. -/
def resolveSession (db : Db) (env : Env) (sessionId : Option String) : String × Db :=
  if falsy sessionId then (env.freshId, insertSession db env.freshId)
  else
    let sid := sessionId.getD ""
    if sessionExists db sid then (sid, db)
    else if env.insertSuppliedIdFails then (env.freshId, insertSession db env.freshId)
    else (sid, insertSession db sid)

/-- Role mapping inside the history construction (`route.ts` line 74):
`msg.role === 'user' ? 'user' : 'model'`, paired with the message content. -/
def toProviderTurn (m : Message) : GeminiTurn :=
  ⟨if m.role == "user" then "user" else "model", m.content⟩

/-- Everything a Send request produces: the HTTP status, the JSON body fields
(`reply`, `sessionId`, `error`; absent fields are `none`), the database state
after the request, and the recorded gateway invocation (`none` when the
request never reached the gateway). -/
structure PostResult where
  status : Nat
  reply : Option String
  sessionId : Option String
  error : Option String
  db : Db
  gatewayCall : Option GatewayCall
deriving DecidableEq

/-- Embeds the `POST` handler of `src/app/api/chat/route.ts` (lines 31–126):
validate, resolve the session, append the user message, fetch the 7 most
recent messages descending, drop the newest when its content equals the sent
message, reverse and role-map into provider history, call the gateway, and on
success persist the assistant reply; a gateway failure is classified by
`classifyError` into the error response. -/
def POST (db : Db) (env : Env) (req : ChatReq) : PostResult :=
  if falsy req.message then
    ⟨400, none, none, some "Message is required", db, none⟩
  else
    let message := req.message.getD ""
    let currentSessionId := (resolveSession db env req.sessionId).1
    let db1 := (resolveSession db env req.sessionId).2
    let db2 := insertMessage db1 currentSessionId "user" message
    let previousMessages := recentDescending db2 currentSessionId 7
    let historyMessages :=
      match previousMessages with
      | [] => ([] : List Message)
      | m :: rest => if m.content == message then rest else m :: rest
    let history := historyMessages.reverse.map toProviderTurn
    match env.gateway with
    | Except.ok responseText =>
        ⟨200, some responseText, some currentSessionId, none,
          insertMessage db2 currentSessionId "assistant" responseText,
          some ⟨history, message⟩⟩
    | Except.error e =>
        ⟨(classifyError e).statusCode, none, none,
          some (classifyError e).errorMessage, db2, some ⟨history, message⟩⟩

/-- Response of a Fetch-history request: HTTP status and the JSON body
(`messages` on success, `error` on validation failure). -/
structure GetResult where
  status : Nat
  messages : Option (List Message)
  error : Option String
deriving DecidableEq

/-- Embeds the `GET` handler of `src/app/api/chat/route.ts` (lines 129–159):
missing `sessionId` is a 400; an unknown session yields `{ messages: [] }`
with status 200; otherwise the session's full message list ordered by
`createdAt` ascending is returned with status 200. -/
def GET (db : Db) (sessionId : Option String) : GetResult :=
  if falsy sessionId then
    ⟨400, none, some "Session ID is required"⟩
  else
    let sid := sessionId.getD ""
    if !sessionExists db sid then
      ⟨200, some [], none⟩
    else
      ⟨200, some (allForSession db sid), none⟩

/-- Modelled from the claim's description of the Context Window Builder
(spec §4.3), for comparison with the window `POST` actually passes: fetch the
7 most recent messages of the session in descending `createdAt` order; drop
the newest exactly when its content equals the just-sent message, otherwise
keep all 7; reverse to oldest-first; map role `user` to provider role
`"user"` and every other role to `"model"`. -/
def contextWindowSpec (db : Db) (sid msgText : String) : List GeminiTurn :=
  let recent := recentDescending db sid 7
  let kept :=
    match recent with
    | [] => ([] : List Message)
    | newest :: older => if newest.content == msgText then older else newest :: older
  kept.reverse.map toProviderTurn

theorem falsy_some_of_ne {msg : String} (h : msg ≠ "") : falsy (some msg) = false := by
  simp [falsy, h]

theorem resolveSession_messages (db : Db) (env : Env) (s : Option String) :
    (resolveSession db env s).2.messages = db.messages := by
  unfold resolveSession
  cases hf : falsy s with
  | true =>
    rw [if_pos rfl]
    rfl
  | false =>
    rw [if_neg (by simp)]
    cases hx : sessionExists db (s.getD "") with
    | true => simp [hx]
    | false =>
      cases hfl : env.insertSuppliedIdFails <;> simp [hx, hfl, insertSession]

theorem resolveSession_wf {db : Db} (h : db.Wf) (env : Env) (s : Option String) :
    (resolveSession db env s).2.Wf := by
  unfold resolveSession
  cases hf : falsy s with
  | true =>
    rw [if_pos rfl]
    exact wf_insertSession h _
  | false =>
    rw [if_neg (by simp)]
    cases hx : sessionExists db (s.getD "") with
    | true => simpa [hx] using h
    | false =>
      cases hfl : env.insertSuppliedIdFails <;>
        simp [hx, hfl] <;> exact wf_insertSession h _

theorem sessionExists_insertSession (d : Db) (sid : String) :
    sessionExists (insertSession d sid) sid = true := by
  simp [sessionExists, insertSession, List.any_append]

theorem resolveSession_valid (db : Db) (env : Env) (s : Option String) :
    sessionExists (resolveSession db env s).2 (resolveSession db env s).1 = true := by
  unfold resolveSession
  cases hf : falsy s with
  | true =>
    rw [if_pos rfl]
    exact sessionExists_insertSession db env.freshId
  | false =>
    rw [if_neg (by simp)]
    cases hx : sessionExists db (s.getD "") with
    | true => simp [hx]
    | false =>
      cases hfl : env.insertSuppliedIdFails <;>
        simp [hx, hfl, sessionExists_insertSession]

/-- Canonical shape of a Send that passes validation and whose gateway call
succeeds: status 200, the reply and the resolved session id are returned, the
user message and assistant reply are appended in that order, and the gateway
received the built context window with the message as active turn. -/
theorem POST_ok_eq (db : Db) (env : Env) (sidOpt : Option String)
    (msg reply : String) (h : msg ≠ "") (hg : env.gateway = Except.ok reply) :
    POST db env ⟨some msg, sidOpt⟩ =
      ⟨200, some reply, some (resolveSession db env sidOpt).1, none,
        insertMessage
          (insertMessage (resolveSession db env sidOpt).2
            (resolveSession db env sidOpt).1 "user" msg)
          (resolveSession db env sidOpt).1 "assistant" reply,
        some ⟨contextWindowSpec
            (insertMessage (resolveSession db env sidOpt).2
              (resolveSession db env sidOpt).1 "user" msg)
            (resolveSession db env sidOpt).1 msg, msg⟩⟩ := by
  unfold POST
  simp only [falsy_some_of_ne h, Bool.false_eq_true, if_false, hg]
  rfl

/-- Canonical shape of a Send that passes validation and whose gateway call
fails: the classified status and message are returned, no reply and no session
id appear in the body, only the user message was appended, and the gateway had
received the built context window with the message as active turn. -/
theorem POST_error_eq (db : Db) (env : Env) (sidOpt : Option String)
    (msg : String) (e : GatewayError)
    (h : msg ≠ "") (hg : env.gateway = Except.error e) :
    POST db env ⟨some msg, sidOpt⟩ =
      ⟨(classifyError e).statusCode, none, none,
        some (classifyError e).errorMessage,
        insertMessage (resolveSession db env sidOpt).2
          (resolveSession db env sidOpt).1 "user" msg,
        some ⟨contextWindowSpec
            (insertMessage (resolveSession db env sidOpt).2
              (resolveSession db env sidOpt).1 "user" msg)
            (resolveSession db env sidOpt).1 msg, msg⟩⟩ := by
  unfold POST
  simp only [falsy_some_of_ne h, Bool.false_eq_true, if_false, hg]
  rfl

/-- Window built right after appending the user message: the appended row is
the newest of the 7 fetched, its content equals the sent message, so it is
dropped and the context is exactly the 6 most recent prior messages, oldest
first, role-mapped. -/
theorem contextWindowSpec_insert {db1 : Db} (h1 : db1.Wf) (sid msg : String) :
    contextWindowSpec (insertMessage db1 sid "user" msg) sid msg =
      ((recentDescending db1 sid 6).reverse).map toProviderTurn := by
  have h7 := recentDescending_insertMessage h1 sid "user" msg 6
  rw [show (6 : Nat) + 1 = 7 from rfl] at h7
  simp only [contextWindowSpec, h7]
  simp

/-- C1: for every Send request, the context window passed to the Completion
Gateway is exactly the spec-described one — the 7 most recent messages of the
session (after the user append) in descending `createdAt` order, the newest
dropped precisely when its content equals the just-sent message, the rest
reversed to oldest-first with role `user` mapped to `"user"` and every other
role to `"model"` — and the current message is sent separately as the active
turn; on a well-formed store the history consists solely of the 6 most recent
messages that existed before the append, so the current message is not in it. -/
theorem post_context_window_spec (db : Db) (env : Env) (sidOpt : Option String)
    (msg : String) (h : msg ≠ "") :
    (POST db env ⟨some msg, sidOpt⟩).gatewayCall =
      some ⟨contextWindowSpec
          (insertMessage (resolveSession db env sidOpt).2
            (resolveSession db env sidOpt).1 "user" msg)
          (resolveSession db env sidOpt).1 msg, msg⟩ ∧
    (db.Wf →
      (POST db env ⟨some msg, sidOpt⟩).gatewayCall =
        some ⟨((recentDescending (resolveSession db env sidOpt).2
            (resolveSession db env sidOpt).1 6).reverse).map toProviderTurn, msg⟩) := by
  constructor
  · cases hg : env.gateway with
    | ok r => rw [POST_ok_eq db env sidOpt msg r h hg]
    | error e => rw [POST_error_eq db env sidOpt msg e h hg]
  · intro hwf
    have h1 := resolveSession_wf hwf env sidOpt
    have hcw := contextWindowSpec_insert h1 (resolveSession db env sidOpt).1 msg
    cases hg : env.gateway with
    | ok r =>
      rw [POST_ok_eq db env sidOpt msg r h hg]
      simp [hcw]
    | error e =>
      rw [POST_error_eq db env sidOpt msg e h hg]
      simp [hcw]

/-- C2: for every Send request, regardless of how many messages the session
already contains, the history list passed to the completion step has at most
6 entries. -/
theorem post_history_at_most_six (db : Db) (env : Env) (sidOpt : Option String)
    (msg : String) (hwf : db.Wf) (h : msg ≠ "") :
    ∃ gc, (POST db env ⟨some msg, sidOpt⟩).gatewayCall = some gc ∧
      gc.history.length ≤ 6 := by
  have h1 := resolveSession_wf hwf env sidOpt
  have hcw := contextWindowSpec_insert h1 (resolveSession db env sidOpt).1 msg
  have hlen : (((recentDescending (resolveSession db env sidOpt).2
      (resolveSession db env sidOpt).1 6).reverse).map toProviderTurn).length ≤ 6 := by
    simp only [List.length_map, List.length_reverse, recentDescending]
    exact List.length_take_le _ _
  cases hg : env.gateway with
  | ok r =>
    rw [POST_ok_eq db env sidOpt msg r h hg]
    exact ⟨_, rfl, by rw [hcw]; exact hlen⟩
  | error e =>
    rw [POST_error_eq db env sidOpt msg e h hg]
    exact ⟨_, rfl, by rw [hcw]; exact hlen⟩

/-- C3: on a Send whose gateway call fails, the response carries the
classified status code and fixed user message with no reply, and the
previously appended user message remains persisted — the final message log is
the original one plus exactly the one user row. -/
theorem post_gateway_failure_persists_user_message (db : Db) (env : Env)
    (sidOpt : Option String) (msg : String) (e : GatewayError)
    (h : msg ≠ "") (hg : env.gateway = Except.error e) :
    (POST db env ⟨some msg, sidOpt⟩).status = (classifyError e).statusCode ∧
    (POST db env ⟨some msg, sidOpt⟩).error = some (classifyError e).errorMessage ∧
    (POST db env ⟨some msg, sidOpt⟩).reply = none ∧
    ∃ m, (POST db env ⟨some msg, sidOpt⟩).db.messages = db.messages ++ [m] ∧
      m.role = "user" ∧ m.content = msg := by
  rw [POST_error_eq db env sidOpt msg e h hg]
  refine ⟨rfl, rfl, rfl,
    ⟨(resolveSession db env sidOpt).2.clock, (resolveSession db env sidOpt).1,
      "user", msg, (resolveSession db env sidOpt).2.clock⟩, ?_, rfl, rfl⟩
  simp [insertMessage, resolveSession_messages]

/-- C4 fails as stated: an error whose message contains the credential keyword
`api_key` but also the quota keyword `quota` is captured by the earlier
quota/billing rule, so the classifier returns the ServiceUnavailable category
and message, not the ConfigError one. -/
theorem classify_credential_claim_cex :
    credentialRule ⟨"api_key quota", none, none⟩ = true ∧
    classifyErrorFull ⟨"api_key quota", none, none⟩ ≠
      ⟨ErrorCategory.ConfigError, 503,
        "Service configuration error. Please contact support."⟩ := by
  constructor
  · decide
  · decide

/-- C4 (amended): every error matching the credential rule (message contains
`api_key`, `api key`, `invalid key`, `unauthorized` or `authentication`, or
status 401/403) that is not already captured by the earlier quota/billing rule
is classified as ConfigError with status 503 and the fixed
configuration-error message. -/
theorem classify_credential_config_error (e : GatewayError)
    (hcred : credentialRule e = true) (hquota : quotaRule e = false) :
    classifyErrorFull e =
      ⟨ErrorCategory.ConfigError, 503,
        "Service configuration error. Please contact support."⟩ := by
  unfold classifyErrorFull
  simp [hquota, hcred]

theorem classify_credential_config_error_witness :
    credentialRule ⟨"unauthorized", none, none⟩ = true ∧
    quotaRule ⟨"unauthorized", none, none⟩ = false ∧
    classifyErrorFull ⟨"unauthorized", none, none⟩ =
      ⟨ErrorCategory.ConfigError, 503,
        "Service configuration error. Please contact support."⟩ :=
  ⟨by decide, by decide,
    classify_credential_config_error ⟨"unauthorized", none, none⟩
      (by decide) (by decide)⟩

/-- C5 fails as stated: a message containing `rate limit exceeded` together
with the quota keyword `quota` is captured by the earlier quota/billing rule,
so the result is not the RateLimited category. -/
theorem classify_rate_limit_claim_cex :
    strIncludes "quota rate limit exceeded" "rate limit exceeded" = true ∧
    classifyErrorFull ⟨"quota rate limit exceeded", none, none⟩ ≠
      ⟨ErrorCategory.RateLimited, 429,
        "Too many requests. Please wait a moment and try again."⟩ := by
  constructor
  · decide
  · decide

/-- C5 (amended): classification is the pure function `classifyErrorFull`, so
it is deterministic and total; and every error whose lowercased message
contains `rate limit exceeded` and that matches neither of the two earlier
rules (quota/billing and credentials) is classified RateLimited with status
429 and the fixed rate-limit message. -/
theorem classify_rate_limit_exceeded (e : GatewayError)
    (hrate : strIncludes (strToLower e.message) "rate limit exceeded" = true)
    (hquota : quotaRule e = false) (hcred : credentialRule e = false) :
    classifyErrorFull e =
      ⟨ErrorCategory.RateLimited, 429,
        "Too many requests. Please wait a moment and try again."⟩ := by
  have hr : strIncludes (strToLower e.message) "rate" = true := by
    unfold strIncludes at hrate ⊢
    have hsplit : ("rate limit exceeded").data = ("rate").data ++ (" limit exceeded").data := by
      decide
    rw [hsplit] at hrate
    exact occursChars_append _ _ _ hrate
  have hrr : rateRule e = true := by
    unfold rateRule
    simp [hr]
  unfold classifyErrorFull
  simp [hquota, hcred, hrr]

theorem classify_rate_limit_exceeded_witness :
    strIncludes (strToLower "rate limit exceeded") "rate limit exceeded" = true ∧
    quotaRule ⟨"rate limit exceeded", none, none⟩ = false ∧
    credentialRule ⟨"rate limit exceeded", none, none⟩ = false ∧
    classifyErrorFull ⟨"rate limit exceeded", none, none⟩ =
      ⟨ErrorCategory.RateLimited, 429,
        "Too many requests. Please wait a moment and try again."⟩ :=
  ⟨by decide, by decide, by decide,
    classify_rate_limit_exceeded ⟨"rate limit exceeded", none, none⟩
      (by decide) (by decide) (by decide)⟩

/-- C6: session resolution is total and never fails a request over a
session-identity mismatch: the returned id always exists in the resulting
store; a JS-falsy supplied id (absent, or the empty string, which
`if (!currentSessionId)` treats the same way) yields the freshly generated
id; a supplied non-empty id that exists is returned unchanged with the store
untouched; an unknown supplied non-empty id is kept when its insert succeeds
and replaced by the freshly generated id when that insert throws. -/
theorem resolve_session_total (db : Db) (env : Env) (sidOpt : Option String) :
    sessionExists (resolveSession db env sidOpt).2 (resolveSession db env sidOpt).1 = true ∧
    (falsy sidOpt = true → (resolveSession db env sidOpt).1 = env.freshId) ∧
    (∀ s, sidOpt = some s → s ≠ "" → sessionExists db s = true →
      resolveSession db env sidOpt = (s, db)) ∧
    (∀ s, sidOpt = some s → s ≠ "" → sessionExists db s = false →
      env.insertSuppliedIdFails = false → (resolveSession db env sidOpt).1 = s) ∧
    (∀ s, sidOpt = some s → s ≠ "" → sessionExists db s = false →
      env.insertSuppliedIdFails = true →
      (resolveSession db env sidOpt).1 = env.freshId) := by
  refine ⟨resolveSession_valid db env sidOpt, ?_, ?_, ?_, ?_⟩
  · intro hf
    unfold resolveSession
    rw [if_pos hf]
  · rintro s rfl hs hx
    unfold resolveSession
    rw [if_neg (by simp [falsy_some_of_ne hs])]
    simp [hx]
  · rintro s rfl hs hx hfl
    unfold resolveSession
    rw [if_neg (by simp [falsy_some_of_ne hs])]
    simp [hx, hfl]
  · rintro s rfl hs hx hfl
    unfold resolveSession
    rw [if_neg (by simp [falsy_some_of_ne hs])]
    simp [hx, hfl]

/-- C7: a Send whose message is absent or empty gets status 400 and performs
no persistence writes — the response body has only the validation error and
the returned store is exactly the input store. -/
theorem post_empty_message_no_writes (db : Db) (env : Env)
    (sidOpt : Option String) (msgOpt : Option String)
    (h : falsy msgOpt = true) :
    POST db env ⟨msgOpt, sidOpt⟩ =
      ⟨400, none, none, some "Message is required", db, none⟩ := by
  unfold POST
  simp [h]

/-- C8: a Fetch-history request without a `sessionId` is a 400 validation
error; an unknown session id yields status 200 with an empty list; a known
session id yields status 200 with the full message list sorted by `createdAt`
ascending, which equals the reverse of the session's recent-descending view. -/
theorem get_history_spec (db : Db) (sidOpt : Option String) (hwf : db.Wf) :
    (sidOpt = none → GET db sidOpt = ⟨400, none, some "Session ID is required"⟩) ∧
    (∀ s, sidOpt = some s → s ≠ "" → sessionExists db s = false →
      GET db sidOpt = ⟨200, some [], none⟩) ∧
    (∀ s, sidOpt = some s → s ≠ "" → sessionExists db s = true →
      GET db sidOpt = ⟨200, some (allForSession db s), none⟩ ∧
      (allForSession db s).Pairwise (fun a b => a.createdAt ≤ b.createdAt) ∧
      allForSession db s = (recentDescending db s db.messages.length).reverse) := by
  refine ⟨?_, ?_, ?_⟩
  · rintro rfl
    rfl
  · rintro s rfl hs hex
    unfold GET
    simp [falsy_some_of_ne hs, hex]
  · rintro s rfl hs hex
    have hF := pairwise_filter_messages hwf s
    have hasc := sortAsc_of_strict_asc hF
    refine ⟨?_, ?_, ?_⟩
    · unfold GET
      simp [falsy_some_of_ne hs, hex]
    · unfold allForSession
      rw [hasc]
      exact hF.imp (fun hab => Nat.le_of_lt hab)
    · unfold allForSession recentDescending
      rw [hasc, sortDesc_of_strict_asc hF]
      rw [List.take_of_length_le, List.reverse_reverse]
      rw [List.length_reverse]
      exact (List.filter_sublist db.messages).length_le

/-- C9: server-side validation of Send rejects only an absent or empty
message, so a non-empty all-whitespace message passes validation, is
persisted as a user message, and is the exact text the gateway is called
with. -/
theorem post_whitespace_message_accepted (db : Db) (env : Env)
    (sidOpt : Option String) (msg : String) (h : msg ≠ "")
    (_hws : msg.data.all Char.isWhitespace = true) :
    (∃ gc, (POST db env ⟨some msg, sidOpt⟩).gatewayCall = some gc ∧
      gc.current = msg) ∧
    (∃ m ∈ (POST db env ⟨some msg, sidOpt⟩).db.messages,
      m.role = "user" ∧ m.content = msg) := by
  cases hg : env.gateway with
  | ok r =>
    rw [POST_ok_eq db env sidOpt msg r h hg]
    refine ⟨⟨_, rfl, rfl⟩,
      ⟨(resolveSession db env sidOpt).2.clock, (resolveSession db env sidOpt).1,
        "user", msg, (resolveSession db env sidOpt).2.clock⟩, ?_, rfl, rfl⟩
    simp [insertMessage]
  | error e =>
    rw [POST_error_eq db env sidOpt msg e h hg]
    refine ⟨⟨_, rfl, rfl⟩,
      ⟨(resolveSession db env sidOpt).2.clock, (resolveSession db env sidOpt).1,
        "user", msg, (resolveSession db env sidOpt).2.clock⟩, ?_, rfl, rfl⟩
    simp [insertMessage]

/-- C10: the error response of a failed Send carries only the error string —
no `sessionId` and no `reply` — even though, when no session id was supplied,
the request did create a session (under the freshly generated id) and
persisted the user message under it, so that id is never revealed to the
client. -/
theorem post_error_response_no_session_id (db : Db) (env : Env)
    (sidOpt : Option String) (msg : String) (e : GatewayError)
    (h : msg ≠ "") (hg : env.gateway = Except.error e) :
    (POST db env ⟨some msg, sidOpt⟩).sessionId = none ∧
    (POST db env ⟨some msg, sidOpt⟩).reply = none ∧
    (POST db env ⟨some msg, sidOpt⟩).error = some (classifyError e).errorMessage ∧
    (sidOpt = none →
      sessionExists (POST db env ⟨some msg, sidOpt⟩).db env.freshId = true ∧
      ∃ m ∈ (POST db env ⟨some msg, sidOpt⟩).db.messages,
        m.sessionId = env.freshId ∧ m.content = msg) := by
  rw [POST_error_eq db env sidOpt msg e h hg]
  refine ⟨rfl, rfl, rfl, ?_⟩
  rintro rfl
  constructor
  · exact sessionExists_insertSession db env.freshId
  · refine ⟨⟨(resolveSession db env none).2.clock, env.freshId, "user", msg,
      (resolveSession db env none).2.clock⟩, ?_, rfl, rfl⟩
    simp only [insertMessage, List.mem_append, List.mem_singleton]
    exact Or.inr rfl

theorem post_context_window_spec_witness :
    ("Hi" ≠ "") ∧
    ((POST Db.empty ⟨"sA", false, Except.ok "Welcome"⟩ ⟨some "Hi", none⟩).gatewayCall =
      some ⟨contextWindowSpec
          (insertMessage (resolveSession Db.empty ⟨"sA", false, Except.ok "Welcome"⟩ none).2
            (resolveSession Db.empty ⟨"sA", false, Except.ok "Welcome"⟩ none).1 "user" "Hi")
          (resolveSession Db.empty ⟨"sA", false, Except.ok "Welcome"⟩ none).1 "Hi", "Hi"⟩ ∧
    (Db.empty.Wf →
      (POST Db.empty ⟨"sA", false, Except.ok "Welcome"⟩ ⟨some "Hi", none⟩).gatewayCall =
        some ⟨((recentDescending
            (resolveSession Db.empty ⟨"sA", false, Except.ok "Welcome"⟩ none).2
            (resolveSession Db.empty ⟨"sA", false, Except.ok "Welcome"⟩ none).1 6).reverse).map
              toProviderTurn, "Hi"⟩)) :=
  ⟨by decide,
    post_context_window_spec Db.empty ⟨"sA", false, Except.ok "Welcome"⟩ none "Hi" (by decide)⟩

theorem post_history_at_most_six_witness :
    Db.empty.Wf ∧ ("Hi" ≠ "") ∧
    ∃ gc, (POST Db.empty ⟨"sB", false, Except.ok "Welcome"⟩ ⟨some "Hi", none⟩).gatewayCall =
      some gc ∧ gc.history.length ≤ 6 :=
  ⟨Db.Wf.empty, by decide,
    post_history_at_most_six Db.empty ⟨"sB", false, Except.ok "Welcome"⟩ none "Hi"
      Db.Wf.empty (by decide)⟩

theorem post_gateway_failure_persists_user_message_witness :
    ("Hi" ≠ "") ∧
    ((⟨"sC", false, Except.error ⟨"boom", none, none⟩⟩ : Env).gateway =
      Except.error ⟨"boom", none, none⟩) ∧
    ((POST Db.empty ⟨"sC", false, Except.error ⟨"boom", none, none⟩⟩ ⟨some "Hi", none⟩).status =
        (classifyError ⟨"boom", none, none⟩).statusCode ∧
      (POST Db.empty ⟨"sC", false, Except.error ⟨"boom", none, none⟩⟩ ⟨some "Hi", none⟩).error =
        some (classifyError ⟨"boom", none, none⟩).errorMessage ∧
      (POST Db.empty ⟨"sC", false, Except.error ⟨"boom", none, none⟩⟩ ⟨some "Hi", none⟩).reply =
        none ∧
      ∃ m, (POST Db.empty ⟨"sC", false, Except.error ⟨"boom", none, none⟩⟩
          ⟨some "Hi", none⟩).db.messages = Db.empty.messages ++ [m] ∧
        m.role = "user" ∧ m.content = "Hi") :=
  ⟨by decide, rfl,
    post_gateway_failure_persists_user_message Db.empty
      ⟨"sC", false, Except.error ⟨"boom", none, none⟩⟩ none "Hi" ⟨"boom", none, none⟩
      (by decide) rfl⟩

theorem resolve_session_total_witness :
    sessionExists (resolveSession Db.empty ⟨"sD", false, Except.ok "r"⟩ (some "ghost")).2
      (resolveSession Db.empty ⟨"sD", false, Except.ok "r"⟩ (some "ghost")).1 = true ∧
    (falsy (some "ghost") = true →
      (resolveSession Db.empty ⟨"sD", false, Except.ok "r"⟩ (some "ghost")).1 = "sD") ∧
    (∀ s, (some "ghost" : Option String) = some s → s ≠ "" →
      sessionExists Db.empty s = true →
      resolveSession Db.empty ⟨"sD", false, Except.ok "r"⟩ (some "ghost") = (s, Db.empty)) ∧
    (∀ s, (some "ghost" : Option String) = some s → s ≠ "" →
      sessionExists Db.empty s = false → false = false →
      (resolveSession Db.empty ⟨"sD", false, Except.ok "r"⟩ (some "ghost")).1 = s) ∧
    (∀ s, (some "ghost" : Option String) = some s → s ≠ "" →
      sessionExists Db.empty s = false → false = true →
      (resolveSession Db.empty ⟨"sD", false, Except.ok "r"⟩ (some "ghost")).1 = "sD") :=
  resolve_session_total Db.empty ⟨"sD", false, Except.ok "r"⟩ (some "ghost")

theorem post_empty_message_no_writes_witness :
    falsy none = true ∧
    POST Db.empty ⟨"sE", false, Except.ok "r"⟩ ⟨none, none⟩ =
      ⟨400, none, none, some "Message is required", Db.empty, none⟩ :=
  ⟨by decide,
    post_empty_message_no_writes Db.empty ⟨"sE", false, Except.ok "r"⟩ none none (by decide)⟩

theorem get_history_spec_witness :
    Db.empty.Wf ∧
    (((some "ghost" : Option String) = none →
      GET Db.empty (some "ghost") = ⟨400, none, some "Session ID is required"⟩) ∧
    (∀ s, (some "ghost" : Option String) = some s → s ≠ "" →
      sessionExists Db.empty s = false →
      GET Db.empty (some "ghost") = ⟨200, some [], none⟩) ∧
    (∀ s, (some "ghost" : Option String) = some s → s ≠ "" →
      sessionExists Db.empty s = true →
      GET Db.empty (some "ghost") = ⟨200, some (allForSession Db.empty s), none⟩ ∧
      (allForSession Db.empty s).Pairwise (fun a b => a.createdAt ≤ b.createdAt) ∧
      allForSession Db.empty s =
        (recentDescending Db.empty s Db.empty.messages.length).reverse)) :=
  ⟨Db.Wf.empty, get_history_spec Db.empty (some "ghost") Db.Wf.empty⟩

theorem post_whitespace_message_accepted_witness :
    (" " ≠ "") ∧ (" ").data.all Char.isWhitespace = true ∧
    ((∃ gc, (POST Db.empty ⟨"sF", false, Except.ok "r"⟩ ⟨some " ", none⟩).gatewayCall =
        some gc ∧ gc.current = " ") ∧
      (∃ m ∈ (POST Db.empty ⟨"sF", false, Except.ok "r"⟩ ⟨some " ", none⟩).db.messages,
        m.role = "user" ∧ m.content = " ")) :=
  ⟨by decide, by decide,
    post_whitespace_message_accepted Db.empty ⟨"sF", false, Except.ok "r"⟩ none " "
      (by decide) (by decide)⟩

theorem post_error_response_no_session_id_witness :
    ("Hi" ≠ "") ∧
    ((⟨"sG", false, Except.error ⟨"boom", none, none⟩⟩ : Env).gateway =
      Except.error ⟨"boom", none, none⟩) ∧
    ((POST Db.empty ⟨"sG", false, Except.error ⟨"boom", none, none⟩⟩
        ⟨some "Hi", none⟩).sessionId = none ∧
      (POST Db.empty ⟨"sG", false, Except.error ⟨"boom", none, none⟩⟩
        ⟨some "Hi", none⟩).reply = none ∧
      (POST Db.empty ⟨"sG", false, Except.error ⟨"boom", none, none⟩⟩
        ⟨some "Hi", none⟩).error = some (classifyError ⟨"boom", none, none⟩).errorMessage ∧
      ((none : Option String) = none →
        sessionExists (POST Db.empty ⟨"sG", false, Except.error ⟨"boom", none, none⟩⟩
          ⟨some "Hi", none⟩).db "sG" = true ∧
        ∃ m ∈ (POST Db.empty ⟨"sG", false, Except.error ⟨"boom", none, none⟩⟩
            ⟨some "Hi", none⟩).db.messages,
          m.sessionId = "sG" ∧ m.content = "Hi")) :=
  ⟨by decide, rfl,
    post_error_response_no_session_id Db.empty
      ⟨"sG", false, Except.error ⟨"boom", none, none⟩⟩ none "Hi" ⟨"boom", none, none⟩
      (by decide) rfl⟩
